/-
Verification of the "Fix The Interface" mini-game engine (Angular repository,
full-mode `GameService` in `src/app/app.component.ts`; the simpler classic-mode
service in `src/app/services/game.service.ts` is a reduced configuration and the
full mode is canonical where they differ).

The engine is shallowly embedded: the `BehaviorSubject` holding the single
authoritative `GameState` becomes explicit state threading through a `Service`
record; every `state$.next(x)` becomes "the current state is now `x`" with
last-write-wins semantics, so each transition function returns the state that is
current when the corresponding JS method returns.  `Date.now()` and the output
of `Math.random` (level generation) are inputs.  `setTimeout`-deferred callbacks
(combo expiry, freeze/double power-up expiry, achievement toast messages) fire
asynchronously in the source and are outside this synchronous model; everything
the modelled transitions do is the synchronous part of the corresponding method.
JS numbers are modelled as `Nat` / `Int` / `ℚ` as appropriate; JS `%` on `Int`
is `Int.tmod` (truncated, sign of the dividend); `Math.floor` on the exact
rational values appearing in the scoring code is noted where it is used.
Optional JS fields/`undefined` are `Option`; JS truthiness tests on them are
spelled out per type (`0`, `''`, `false`, `null`/`undefined` are falsy).
-/
import Mathlib

namespace FixTheInterface

/-- `ElementType` enum from the service. -/
inductive ElementType where
  | button | input | card | slider | image | label | checkbox | toggle | dropdown
deriving Repr, DecidableEq

/-- The string a JS template literal would interpolate for an `ElementType`. -/
def ElementType.str : ElementType → String
  | .button => "button"
  | .input => "input"
  | .card => "card"
  | .slider => "slider"
  | .image => "image"
  | .label => "label"
  | .checkbox => "checkbox"
  | .toggle => "toggle"
  | .dropdown => "dropdown"

/-- `UIState` (all fields optional in the source).  A value of this type also
serves as a `Partial<UIState>` payload, with `none` meaning "key absent". -/
structure UIState where
  rotation : Option Int := none
  currentText : Option String := none
  currentColor : Option String := none
  blurred : Option Bool := none
  disabled : Option Bool := none
  orderIndex : Option Int := none
  clicked : Option Bool := none
  sliderValue : Option Int := none
  checked : Option Bool := none
  toggleState : Option Bool := none
  selectedOption : Option String := none
  opacity : Option ℚ := none
  scale : Option ℚ := none
deriving Repr, DecidableEq

/-- `GameElement.brokenProps`.  `textBroken` is `{ expected: string }` in the
source and is assigned `null` (not deleted) when satisfied; `null` and "absent"
are observationally identical there (every access guards with JS truthiness),
so both are `none` here and `some w` is `{ expected := w }`. -/
structure BrokenProps where
  clickBroken : Option Bool := none
  rotateBroken : Option Int := none
  textBroken : Option String := none
  colorWrong : Option String := none
  orderIndex : Option Nat := none
  blur : Option Bool := none
  disabled : Option Bool := none
  sliderBroken : Option Int := none
  checkboxBroken : Option Bool := none
  toggleBroken : Option Bool := none
  dropdownBroken : Option String := none
  opacityBroken : Option ℚ := none
  scaleBroken : Option ℚ := none
deriving Repr, DecidableEq

structure GameElement where
  id : String
  type : ElementType
  brokenProps : BrokenProps
  difficulty : Nat
  fixed : Bool
  hint : String
  ui : UIState
  fixedAt : Option Nat := none
deriving Repr, DecidableEq

structure PowerUp where
  id : String
  name : String
  icon : String
  cost : Nat
  active : Bool
deriving Repr, DecidableEq

structure Achievement where
  id : String
  name : String
  description : String
  icon : String
  unlocked : Bool
  progress : Option Nat := none
  target : Option Nat := none
deriving Repr, DecidableEq

structure Particle where
  id : String
  x : ℚ
  y : ℚ
  vx : ℚ
  vy : ℚ
  life : ℚ
  color : String
  text : Option String := none
deriving Repr, DecidableEq

/-- The single authoritative `GameState`.  `totalFixed` is an `Int` because the
source adds the (possibly negative) change in fixed-element count to it. -/
structure GameState where
  score : Nat
  level : Nat
  timeLeft : Nat
  running : Bool
  elements : List GameElement
  message : Option String := none
  hintsUsed : Nat
  combo : Nat
  maxCombo : Nat
  totalFixed : Int
  powerUps : List PowerUp
  achievements : List Achievement
  particles : List Particle := []
deriving Repr, DecidableEq

/-- The `localStorage` keys the service reads/writes (`fti_best`, `fti_stats`),
as a key-value collaborator with in-memory contents. -/
structure Storage where
  best : Nat := 0
  statsTotalFixed : Int := 0
  statsGamesPlayed : Nat := 0
  statsMaxCombo : Nat := 0
deriving Repr, DecidableEq

/-- The `GameService` instance: the `BehaviorSubject` value plus the mutable
private field `lastFixTime` and the persistence collaborator. -/
structure Service where
  state : GameState
  lastFixTime : Nat := 0
  storage : Storage := {}
deriving Repr, DecidableEq

/-! ## JS truthiness and small helpers -/

/-- Truthiness of an optional JS boolean. -/
def truthyB : Option Bool → Bool
  | some b => b
  | none => false

/-- Truthiness of an optional JS number (`0` is falsy). -/
def truthyN : Option Int → Bool
  | some n => decide (n ≠ 0)
  | none => false

/-- Truthiness of an optional JS natural (`0` is falsy). -/
def truthyNat : Option Nat → Bool
  | some n => decide (n ≠ 0)
  | none => false

/-- Truthiness of an optional JS string (`''` is falsy). -/
def truthyS : Option String → Bool
  | some s => decide (s ≠ "")
  | none => false

/-- Truthiness of an optional JS number modelled as a rational. -/
def truthyQ : Option ℚ → Bool
  | some q => decide (q ≠ 0)
  | none => false

/-- Key-present-wins choice, the per-field meaning of `{ ...ui, ...payload }`. -/
def oOr {α : Type} (p u : Option α) : Option α :=
  match p with
  | some x => some x
  | none => u

/-- `{ ...el.ui, ...payload }`: fields present in the payload override. -/
def mergeUI (ui patch : UIState) : UIState where
  rotation := oOr patch.rotation ui.rotation
  currentText := oOr patch.currentText ui.currentText
  currentColor := oOr patch.currentColor ui.currentColor
  blurred := oOr patch.blurred ui.blurred
  disabled := oOr patch.disabled ui.disabled
  orderIndex := oOr patch.orderIndex ui.orderIndex
  clicked := oOr patch.clicked ui.clicked
  sliderValue := oOr patch.sliderValue ui.sliderValue
  checked := oOr patch.checked ui.checked
  toggleState := oOr patch.toggleState ui.toggleState
  selectedOption := oOr patch.selectedOption ui.selectedOption
  opacity := oOr patch.opacity ui.opacity
  scale := oOr patch.scale ui.scale

/-- JS `x || 1` for an optional number: `undefined` and `0` both yield 1
(used for `newUi.opacity || 1` and `newUi.scale || 1`). -/
def jsOrOne (o : Option ℚ) : ℚ :=
  match o with
  | some q => if q = 0 then 1 else q
  | none => 1

/-- `c.replace(/\s/g, '').toLowerCase()`, the color normalisation in
`colorsMatch` (JS `\s` is modelled by `Char.isWhitespace`). -/
def normColor (c : String) : String :=
  ((c.toList.filter (fun ch => !ch.isWhitespace)).asString).toLower

/-- `GameService.colorsMatch`. -/
def colorsMatch (c1 c2 : String) : Bool :=
  normColor c1 == normColor c2

/-- `Object.values(bp).every(v => !v || (typeof v === 'number' && v === 0))`:
every property still present in `brokenProps` is falsy (the numeric clause is
subsumed by falsiness, since `0` is falsy).  An unsatisfied `textBroken` is a
(truthy) object `{ expected: ... }`, so it fails the test for every expected
word; a satisfied one is `null` (here `none`) and passes. -/
def BrokenProps.allCleared (bp : BrokenProps) : Bool :=
  !truthyB bp.clickBroken && !truthyN bp.rotateBroken && !bp.textBroken.isSome &&
  !truthyS bp.colorWrong && !truthyNat bp.orderIndex && !truthyB bp.blur &&
  !truthyB bp.disabled && !truthyN bp.sliderBroken && !truthyB bp.checkboxBroken &&
  !truthyB bp.toggleBroken && !truthyS bp.dropdownBroken && !truthyQ bp.opacityBroken &&
  !truthyQ bp.scaleBroken

/-! ## Repair verifier: the per-element body of `fixAttempt`'s `map` -/

/-- Rotation acceptance: `need = ((target % 360) + 360) % 360`,
`cur = (rotation || 0) % 360`, `diff = |cur - need|`, accepted when
`diff <= 15 || |diff - 360| <= 15` (wraparound at 0/360).  JS `%` on possibly
negative numbers is `Int.tmod`. -/
def rotationOk (target : Int) (rotation : Option Int) : Bool :=
  let need := ((target.tmod 360) + 360).tmod 360
  let cur := (rotation.getD 0).tmod 360
  let diff := (cur - need).natAbs
  decide (diff ≤ 15) || decide (((diff : Int) - 360).natAbs ≤ 15)

/-- The body of `s.elements.map` in `fixAttempt` for the element whose `id`
matches: merge the payload into `ui`, run every per-kind check whose
`brokenProps` entry is active, delete satisfied entries, and recompute `fixed`.
Each `if (bp.k) { if ok delete bp.k else fixed = false }` block of the source
becomes one `..Active`/`..Ok` pair: the entry is cleared when active and
satisfied, and `fixedFlag` collects `active → ok` for every kind.  `now` is the
`Date.now()` timestamp used for `fixedAt`. -/
def applyFix (now : Nat) (payload : Option UIState) (el : GameElement) : GameElement :=
  let newUi := mergeUI el.ui (payload.getD {})
  let bp := el.brokenProps
  let clickActive := truthyB bp.clickBroken
  let clickOk := newUi.clicked == some true
  -- `bp.rotateBroken && bp.rotateBroken % 360 !== 0`
  let rotActive :=
    match bp.rotateBroken with
    | some r => decide (r ≠ 0) && decide (r.tmod 360 ≠ 0)
    | none => false
  let rotOk := rotationOk (bp.rotateBroken.getD 0) newUi.rotation
  let textActive := bp.textBroken.isSome
  let textOk :=
    (newUi.currentText.getD "").trim.toLower == (bp.textBroken.getD "").trim.toLower
  let colorActive := truthyS bp.colorWrong
  let colorOk := colorsMatch (newUi.currentColor.getD "") (bp.colorWrong.getD "")
  let blurActive := truthyB bp.blur
  let blurOk := newUi.blurred == some false
  let disabledActive := truthyB bp.disabled
  let disabledOk := newUi.disabled == some false
  -- `typeof bp.sliderBroken === 'number'`: presence, not truthiness
  let sliderActive := bp.sliderBroken.isSome
  let sliderOk := decide (((newUi.sliderValue.getD 0) - bp.sliderBroken.getD 0).natAbs ≤ 2)
  let checkboxActive := truthyB bp.checkboxBroken
  let checkboxOk := newUi.checked == some true
  let toggleActive := truthyB bp.toggleBroken
  let toggleOk := newUi.toggleState == some true
  let dropdownActive := truthyS bp.dropdownBroken
  let dropdownOk := newUi.selectedOption == bp.dropdownBroken
  let opacityActive := bp.opacityBroken.isSome
  let opacityOk := decide (|jsOrOne newUi.opacity - bp.opacityBroken.getD 0| ≤ 1/10)
  let scaleActive := bp.scaleBroken.isSome
  let scaleOk := decide (|jsOrOne newUi.scale - bp.scaleBroken.getD 0| ≤ 1/10)
  let bp' : BrokenProps :=
    { clickBroken := if clickActive && clickOk then none else bp.clickBroken
      rotateBroken := if rotActive && rotOk then none else bp.rotateBroken
      textBroken := if textActive && textOk then none else bp.textBroken
      colorWrong := if colorActive && colorOk then none else bp.colorWrong
      orderIndex := bp.orderIndex  -- order entries are never touched here (§4.3)
      blur := if blurActive && blurOk then none else bp.blur
      disabled := if disabledActive && disabledOk then none else bp.disabled
      sliderBroken := if sliderActive && sliderOk then none else bp.sliderBroken
      checkboxBroken := if checkboxActive && checkboxOk then none else bp.checkboxBroken
      toggleBroken := if toggleActive && toggleOk then none else bp.toggleBroken
      dropdownBroken := if dropdownActive && dropdownOk then none else bp.dropdownBroken
      opacityBroken := if opacityActive && opacityOk then none else bp.opacityBroken
      scaleBroken := if scaleActive && scaleOk then none else bp.scaleBroken }
  let fixedFlag :=
    (!clickActive || clickOk) && (!rotActive || rotOk) && (!textActive || textOk) &&
    (!colorActive || colorOk) && (!blurActive || blurOk) && (!disabledActive || disabledOk) &&
    (!sliderActive || sliderOk) && (!checkboxActive || checkboxOk) &&
    (!toggleActive || toggleOk) && (!dropdownActive || dropdownOk) &&
    (!opacityActive || opacityOk) && (!scaleActive || scaleOk)
  let nowFixed := fixedFlag && bp'.allCleared
  { el with
    ui := newUi
    brokenProps := bp'
    fixed := nowFixed
    fixedAt := if nowFixed && !el.fixed then some now else el.fixedAt }

/-! ## Ordering constraint checker (`checkOrderTasks`) -/

/-- `a.ui?.orderIndex ?? 0`, the sort key of the ordering pass. -/
def orderKey (e : GameElement) : Int :=
  e.ui.orderIndex.getD 0

/-- Stable insertion of an element into a key-sorted list: the new element goes
after every already-placed element whose key is `≤` its own, which is exactly
what a stable sort (the ES2019+ `Array.prototype.sort` contract) produces for
elements inserted in original order. -/
def insertByKey (x : GameElement) : List GameElement → List GameElement
  | [] => [x]
  | y :: ys => if orderKey y ≤ orderKey x then y :: insertByKey x ys else x :: y :: ys

/-- `[...elements].sort((a, b) => (a.ui?.orderIndex ?? 0) - (b.ui?.orderIndex ?? 0))`
as a stable insertion sort. -/
def sortByOrder (l : List GameElement) : List GameElement :=
  l.foldl (fun acc x => insertByKey x acc) []

/-- The elements carrying an order target:
`elements.filter(e => typeof e.brokenProps.orderIndex === 'number')`. -/
def orderTargetsOf (elements : List GameElement) : List GameElement :=
  elements.filter (fun e => e.brokenProps.orderIndex.isSome)

/-- The `requiredMap: Map<number, string>` built by
`orderTargets.forEach(e => requiredMap.set(e.brokenProps.orderIndex, e.id))`:
for duplicate target positions the last writer wins, hence the search over the
reversed list. -/
def requiredId (orderTargets : List GameElement) (i : Nat) : Option String :=
  (orderTargets.reverse.find? (fun e => e.brokenProps.orderIndex == some i)).map (·.id)

/-- The `allGood` loop of `checkOrderTasks`: walk the fully sorted sequence and
fail on the first position that is required but occupied by a different
element (breaking early is equivalent to checking them all). -/
def allGoodB (elements : List GameElement) : Bool :=
  let targets := orderTargetsOf elements
  let sorted := sortByOrder elements
  (List.range sorted.length).all (fun i =>
    match requiredId targets i with
    | some rid =>
      match sorted.get? i with
      | some el => el.id == rid
      | none => true
    | none => true)

/-- `GameService.checkOrderTasks`: no-op when no element has an order target;
otherwise every order-constrained element has `fixed` overwritten with the
group verdict `allGood` (the `orderIndex` entry itself is never removed). -/
def checkOrderTasks (elements : List GameElement) : List GameElement :=
  if (orderTargetsOf elements).isEmpty then elements
  else
    elements.map (fun e =>
      if e.brokenProps.orderIndex.isSome then { e with fixed := allGoodB elements } else e)

/-! ## Achievements (`checkAchievements`) -/

/-- The per-achievement `switch` in `checkAchievements` (evaluated only for
still-locked achievements; unknown ids keep `unlocked = false`). -/
def achievementUnlockedNow (s : GameState) (a : Achievement) : Bool :=
  if a.id = "first_fix" then decide ((1 : Int) ≤ s.totalFixed)
  else if a.id = "combo_5" then decide (5 ≤ s.maxCombo)
  else if a.id = "speed_demon" then decide (1 < s.level) && decide (60 < s.timeLeft)
  else if a.id = "perfectionist" then s.elements.all (fun e => e.fixed) && decide (s.hintsUsed = 0)
  else if a.id = "level_5" then decide (5 ≤ s.level)
  else if a.id = "score_1000" then decide (1000 ≤ s.score)
  else false

/-- `GameService.checkAchievements`: already-unlocked achievements are returned
untouched; locked ones are re-evaluated, and `score_1000` tracks
`progress = state.score`.  The method ends with `state$.next({ ...state,
achievements })`, so the state it was *passed* (with the new achievements)
becomes current — the deferred toast notification is a `setTimeout` and is
outside this synchronous model. -/
def checkAchievements (state : GameState) : GameState :=
  let achievements := state.achievements.map (fun a =>
    if a.unlocked then a
    else
      { a with
        unlocked := achievementUnlockedNow state a
        progress := if a.id = "score_1000" then some state.score else a.progress })
  { state with achievements := achievements }

/-! ## Lifecycle controller -/

def initialTimeBase : Nat := 90

/-- `GameService.initPowerUps`. -/
def initPowerUps : List PowerUp :=
  [ { id := "freeze", name := "Freeze Time", icon := "❄️", cost := 300, active := false }
  , { id := "autofix", name := "Auto-Fix", icon := "🔧", cost := 500, active := false }
  , { id := "double", name := "2x Points", icon := "⚡", cost := 200, active := false } ]

/-- `GameService.initAchievements`. -/
def initAchievements : List Achievement :=
  [ { id := "first_fix", name := "First Fix", description := "Fix your first element",
      icon := "🎯", unlocked := false }
  , { id := "combo_5", name := "Combo Master", description := "Reach 5x combo",
      icon := "🔥", unlocked := false }
  , { id := "speed_demon", name := "Speed Demon", description := "Complete level in under 30s",
      icon := "⚡", unlocked := false }
  , { id := "perfectionist", name := "Perfectionist", description := "Complete level without hints",
      icon := "💎", unlocked := false }
  , { id := "level_5", name := "Expert", description := "Reach level 5",
      icon := "👑", unlocked := false }
  , { id := "score_1000", name := "High Roller", description := "Score 1000 points",
      icon := "💰", unlocked := false, progress := some 0, target := some 1000 } ]

/-- The initial `BehaviorSubject` value. -/
def initState : GameState :=
  { score := 0, level := 1, timeLeft := initialTimeBase, running := false, elements := []
    hintsUsed := 0, combo := 0, maxCombo := 0, totalFixed := 0
    powerUps := initPowerUps, achievements := initAchievements, particles := [] }

def initService : Service :=
  { state := initState }

/-- `s.powerUps.find(p => p.id === pid)?.active` (missing power-up is falsy). -/
def powerUpActive (s : GameState) (pid : String) : Bool :=
  truthyB ((s.powerUps.find? (fun p => p.id == pid)).map (fun p => p.active))

/-- `GameService.startLevel`: the generated element list is an input here (the
source draws it from `Math.random` via `generateLevel`); `timeLeft =
max(30, 90 - (level-1)*8)` computed over JS numbers, i.e. over `Int`. -/
def startLevel (level : Nat) (elements : List GameElement) (svc : Service) : Service :=
  let time : Int := (initialTimeBase : Int) - ((level : Int) - 1) * 8
  let s := svc.state
  let st : GameState :=
    { s with
      level := level
      timeLeft := (max 30 time).toNat
      running := true
      elements := elements
      hintsUsed := 0
      combo := 0
      message := none
      powerUps := s.powerUps.map (fun p => { p with active := false }) }
  { svc with
    state := st
    storage := { svc.storage with statsGamesPlayed := svc.storage.statsGamesPlayed + 1 } }

/-- `GameService.stop`. -/
def stop (svc : Service) : Service :=
  { svc with
    state := { svc.state with running := false, message := some "⏸️ Game paused", combo := 0 } }

/-- `GameService.finishLevel`.  The method publishes the completed/expired
state (`running := false`, the bonus message, combo reset) and then calls
`checkAchievements({ ...s, score: finalScore, level: nextLevel })`, which ends
with its own `state$.next` — so the *final* current state is the one built by
`checkAchievements` from the pre-finish snapshot `s`, and the intermediate
publish (kept here as `_published`) is superseded. -/
def finishLevel (success : Bool) (message : String) (svc : Service) : Service :=
  let s := svc.state
  let extra := if success then s.timeLeft * 8 else 0
  let comboBonus := if success then s.maxCombo * 50 else 0
  let finalScore := s.score + extra + comboBonus
  let best' := if svc.storage.best < finalScore then finalScore else svc.storage.best
  let statsTotalFixed' := svc.storage.statsTotalFixed + s.totalFixed
  let statsMaxCombo' := max svc.storage.statsMaxCombo s.maxCombo
  let nextLevel := if success then s.level + 1 else s.level
  let fullMessage :=
    if success then
      message ++ s!" • +{extra} time bonus" ++
        (if 0 < comboBonus then s!" • +{comboBonus} combo bonus" else "")
    else message
  let _published : GameState :=
    { s with
      running := false
      message := some fullMessage
      score := finalScore
      level := nextLevel
      combo := 0 }
  let finalState := checkAchievements { s with score := finalScore, level := nextLevel }
  { svc with
    state := finalState
    storage :=
      { svc.storage with
        best := best'
        statsTotalFixed := statsTotalFixed'
        statsMaxCombo := statsMaxCombo' } }

/-- The body of the 1-second interval installed by `runTimer`: no-op unless
`running`; no decrement while the freeze power-up is active; expiry at
`timeLeft <= 1` goes through `finishLevel(false, ...)`. -/
def tick (svc : Service) : Service :=
  let s := svc.state
  if s.running = false then svc
  else if powerUpActive s "freeze" then svc
  else if s.timeLeft ≤ 1 then finishLevel false "⏱️ Time is up!" svc
  else { svc with state := { s with timeLeft := s.timeLeft - 1 } }

/-- `GameService.useHint`: 8-second time penalty floored at 0 (`Nat`
subtraction is exactly `Math.max(0, t - 8)`), combo reset, hint message. -/
def useHint (elementId : Option String) (svc : Service) : Service :=
  let s := svc.state
  if s.running = false then svc
  else
    let penalty := 8
    let next0 : GameState :=
      { s with timeLeft := s.timeLeft - penalty, hintsUsed := s.hintsUsed + 1, combo := 0 }
    let next :=
      match elementId with
      | some eid =>
        match next0.elements.find? (fun e => e.id == eid) with
        | some el => { next0 with message := some ("💡 " ++ el.hint) }
        | none => next0
      | none =>
        match s.elements.find? (fun e => !e.fixed) with
        | some unfixed => { next0 with message := some ("💡 Hint: " ++ unfixed.hint) }
        | none => next0
    { svc with state := checkAchievements next }

/-- `GameService.autoFixElement`: force every broken dimension of the chosen
element to its satisfied value, mark it fixed and empty its `brokenProps`
(each `if (bp.k)` in the source is a JS truthiness test). -/
def autoFixElement (elements : List GameElement) (id : String) : List GameElement :=
  elements.map (fun el =>
    if el.id ≠ id then el
    else
      let bp := el.brokenProps
      let ui := el.ui
      let ui := if truthyN bp.rotateBroken then { ui with rotation := bp.rotateBroken } else ui
      let ui := if bp.textBroken.isSome then { ui with currentText := bp.textBroken } else ui
      let ui := if truthyS bp.colorWrong then { ui with currentColor := bp.colorWrong } else ui
      let ui := if truthyB bp.blur then { ui with blurred := some false } else ui
      let ui := if truthyB bp.disabled then { ui with disabled := some false } else ui
      let ui := if truthyN bp.sliderBroken then { ui with sliderValue := bp.sliderBroken } else ui
      let ui := if truthyB bp.checkboxBroken then { ui with checked := some true } else ui
      let ui := if truthyB bp.toggleBroken then { ui with toggleState := some true } else ui
      let ui := if truthyS bp.dropdownBroken then { ui with selectedOption := bp.dropdownBroken } else ui
      let ui := if truthyQ bp.opacityBroken then { ui with opacity := bp.opacityBroken } else ui
      let ui := if truthyQ bp.scaleBroken then { ui with scale := bp.scaleBroken } else ui
      { el with ui := ui, fixed := true, brokenProps := {} })

/-- `GameService.usePowerUp`: no-op while not running, for an unknown id, or
when `score < cost`; otherwise the cost is deducted and the power-up flagged
active.  `autofix` immediately repairs the first unfixed element and clears its
own active flag (the source mutates the entry it just created); the 10 s/15 s
deactivation timers of `freeze`/`double` are `setTimeout` callbacks outside
this synchronous model. -/
def usePowerUp (powerUpId : String) (svc : Service) : Service :=
  let s := svc.state
  if s.running = false then svc
  else
    match s.powerUps.find? (fun p => p.id == powerUpId) with
    | none => svc
    | some powerUp =>
      if s.score < powerUp.cost then svc
      else
        let newScore := s.score - powerUp.cost
        let newPowerUps := s.powerUps.map (fun p =>
          if p.id == powerUpId then { p with active := true } else p)
        let message0 := powerUp.icon ++ " " ++ powerUp.name ++ " activated!"
        if powerUpId == "autofix" then
          let res :=
            match s.elements.find? (fun e => !e.fixed) with
            | some unfixed =>
              (autoFixElement s.elements unfixed.id,
               powerUp.icon ++ " Auto-fixed " ++ unfixed.type.str ++ "!")
            | none => (s.elements, message0)
          let newPowerUps2 := newPowerUps.map (fun p =>
            if p.id == powerUpId then { p with active := false } else p)
          { svc with
            state :=
              { s with
                score := newScore
                powerUps := newPowerUps2
                elements := res.1
                message := some res.2 } }
        else
          { svc with
            state :=
              { s with
                score := newScore
                powerUps := newPowerUps
                elements := s.elements
                message := some message0 } }

/-! ## `fixAttempt` -/

/-- `elements.filter(e => e.fixed).length`. -/
def fixedCount (els : List GameElement) : Nat :=
  (els.filter (fun e => e.fixed)).length

/-- The element list after a `fixAttempt` on `id` with `payload`: the targeted
element goes through the repair verifier, then the ordering pass runs over the
whole sequence. -/
def fixUpdated (s : GameState) (id : String) (payload : Option UIState) (now : Nat) :
    List GameElement :=
  checkOrderTasks (s.elements.map (fun el => if el.id ≠ id then el else applyFix now payload el))

/-- The `+N pts` / combo message of a scoring `fixAttempt`. -/
def gainMessage (gained : Nat) (combo : Nat) : String :=
  s!"+{gained} pts" ++ (if 1 < combo then s!" • {combo}x COMBO! 🔥" else "")

/-- `GameService.fixAttempt` without its final level-completion check: verifier
and ordering pass, combo-chain rule against `lastFixTime` (the `Date.now()`
value is the parameter `now`), score gain, counters, message, and the
achievement pass.  `comboBonus = Math.floor(perElementBase * (newCombo * 0.25))`
is exact on these operands (`4 ∣ 100·level·combo`), so it is `Nat` division by
4; `timeBonus = Math.floor(timeLeft * 2)` is `timeLeft * 2` on a natural.  The
3-second combo-expiry `setTimeout` this code re-arms is outside the synchronous
model. -/
def fixCore (id : String) (payload : Option UIState) (now : Nat) (svc : Service) : Service :=
  let s := svc.state
  let updated := fixUpdated s id payload now
  let prevFixedCount := fixedCount s.elements
  let nowFixedCount := fixedCount updated
  let timeSinceLast : Int := (now : Int) - (svc.lastFixTime : Int)
  let newCombo :=
    if prevFixedCount < nowFixedCount then
      if timeSinceLast < 3000 ∧ 0 < s.combo then s.combo + 1 else 1
    else s.combo
  let lastFixTime' := if prevFixedCount < nowFixedCount then now else svc.lastFixTime
  let gained :=
    if prevFixedCount < nowFixedCount then
      let diff := nowFixedCount - prevFixedCount
      let perElementBase := 100 * s.level
      let comboBonus := if 1 < newCombo then perElementBase * newCombo / 4 else 0
      let timeBonus := s.timeLeft * 2
      let multiplier := if powerUpActive s "double" then 2 else 1
      (diff * perElementBase + comboBonus + timeBonus) * multiplier
    else 0
  let nextState : GameState :=
    { s with
      elements := updated
      score := s.score + gained
      combo := newCombo
      maxCombo := max s.maxCombo newCombo
      totalFixed := s.totalFixed + ((nowFixedCount : Int) - (prevFixedCount : Int))
      message := if gained ≠ 0 then some (gainMessage gained newCombo) else s.message }
  { svc with state := checkAchievements nextState, lastFixTime := lastFixTime' }

/-- `GameService.fixAttempt`: no-op while not running; otherwise `fixCore`
followed by `finishLevel(true, ...)` when every element ended up fixed. -/
def fixAttempt (id : String) (payload : Option UIState) (now : Nat) (svc : Service) : Service :=
  if svc.state.running = false then svc
  else
    let mid := fixCore id payload now svc
    if mid.state.elements.all (fun e => e.fixed) then
      finishLevel true "✨ Level Complete!" mid
    else mid

/-! ## Transition steps (for session-level properties) -/

/-- One externally triggered transition of the lifecycle controller. -/
inductive Step where
  | fix (id : String) (payload : Option UIState) (now : Nat)
  | hint (elementId : Option String)
  | power (powerUpId : String)
  | tick
  | start (level : Nat) (elements : List GameElement)
  | stop
  | finish (success : Bool) (message : String)

def applyStep : Step → Service → Service
  | .fix id payload now, svc => fixAttempt id payload now svc
  | .hint eid, svc => useHint eid svc
  | .power pid, svc => usePowerUp pid svc
  | .tick, svc => tick svc
  | .start level els, svc => startLevel level els svc
  | .stop, svc => FixTheInterface.stop svc
  | .finish success msg, svc => finishLevel success msg svc

/-- Whether a step is a `fixAttempt`. -/
def Step.isFix : Step → Bool
  | .fix _ _ _ => true
  | _ => false

/-- A whole sequence of transitions within a session. -/
def runSteps (steps : List Step) (svc : Service) : Service :=
  steps.foldl (fun acc st => applyStep st acc) svc

/-! ## Concrete fixtures (used by witnesses and counterexamples) -/

/-- A still-broken clickable element shown at display position `pos`. -/
def clickEl (i : String) (pos : Int) : GameElement :=
  { id := i, type := .button, brokenProps := { clickBroken := some true }, difficulty := 1
    fixed := false, hint := "Click the tile to activate"
    ui := { orderIndex := some pos, clicked := some false } }

/-- An order-constrained element with order target `target`, current display
position `pos`, and current fixed flag `fx`. -/
def orderEl (i : String) (target : Nat) (pos : Int) (fx : Bool) : GameElement :=
  { id := i, type := .card, brokenProps := { orderIndex := some target }, difficulty := 1
    fixed := fx, hint := "Drag to correct position", ui := { orderIndex := some pos } }

/-- A rotation defect with target 90°. -/
def rotateTargetEl : GameElement :=
  { id := "r", type := .card, brokenProps := { rotateBroken := some 90 }, difficulty := 1
    fixed := false, hint := "Double-click to rotate to correct angle", ui := { rotation := some 270 } }

/-- A rotation defect with target 350°, for the 0/360 wraparound boundary. -/
def rotateWrapEl : GameElement :=
  { id := "w", type := .card, brokenProps := { rotateBroken := some 350 }, difficulty := 1
    fixed := false, hint := "Double-click to rotate to correct angle", ui := { rotation := some 170 } }

/-- A slider defect with target 50. -/
def sliderTargetEl : GameElement :=
  { id := "s", type := .slider, brokenProps := { sliderBroken := some 50 }, difficulty := 1
    fixed := false, hint := "Move slider to 50", ui := { sliderValue := some 0 } }

/-- The payload a click interaction submits. -/
def clickPay : Option UIState := some { clicked := some true }

/-- Spec scenario: order targets `{0:"A", 1:"B", 2:"C"}` with current order
indices A=0, B=2, C=1 (B and C transposed). -/
def elsOrderBad : List GameElement :=
  [orderEl "A" 0 0 false, orderEl "B" 1 2 false, orderEl "C" 2 1 false]

/-- The same level after swapping B's and C's `ui.orderIndex`. -/
def elsOrderGood : List GameElement :=
  [orderEl "A" 0 0 false, orderEl "B" 1 1 false, orderEl "C" 2 2 false]

/-- A running mid-level state with four broken click elements. -/
def svcCombo : Service :=
  { state :=
    { initState with
      running := true
      timeLeft := 60
      elements := [clickEl "e1" 0, clickEl "e2" 1, clickEl "e3" 2, clickEl "e4" 3] } }

def comboFix1 : Service := fixAttempt "e1" clickPay 10000 svcCombo
def comboFix2 : Service := fixAttempt "e2" clickPay 12000 comboFix1
def comboFix3 : Service := fixAttempt "e3" clickPay 16000 comboFix2

/-- A running state in which the order puzzle A→0, B→1, C→2 is currently
satisfied (all three marked fixed, `totalFixed = 3`) and a fourth element D is
still broken. -/
def svcUnfix : Service :=
  { state :=
    { initState with
      running := true
      timeLeft := 50
      totalFixed := 3
      elements :=
        [orderEl "A" 0 0 true, orderEl "B" 1 1 true, orderEl "C" 2 2 true, clickEl "D" 3] } }

/-- A running state holding an already-fixed element "F" (empty `brokenProps`)
plus a still-broken element "D". -/
def svcFixedTarget : Service :=
  { state :=
    { initState with
      running := true
      timeLeft := 50
      elements :=
        [ { id := "F", type := .button, brokenProps := {}, difficulty := 1, fixed := true
            hint := "h", ui := { rotation := some 0 } }
        , clickEl "D" 1 ] } }

/-- `startLevel(1)` from a fresh service, with one generated element. -/
def svcTimer : Service := startLevel 1 [clickEl "e" 0] initService

/-- A non-running (`running = false`) state. -/
def svcStopped : Service :=
  { state := { initState with elements := [clickEl "e" 0] } }

/-- A running state with `score = 100`, below the 300-cost freeze power-up. -/
def svcPoor : Service :=
  { state := { initState with running := true, score := 100, elements := [clickEl "e" 0] } }

/-- A running state whose single remaining element is one click away from
completing the level. -/
def svcComplete : Service :=
  { state := { initState with running := true, timeLeft := 40, elements := [clickEl "solo" 0] } }

/-! ## Helper lemmas -/

/-- `checkOrderTasks` always equals the map that overwrites `fixed` with the
group verdict on exactly the order-constrained elements (in the no-target case
both sides are the identity). -/
theorem checkOrderTasks_eq_map (elements : List GameElement) :
    checkOrderTasks elements =
      elements.map (fun e =>
        if e.brokenProps.orderIndex.isSome then { e with fixed := allGoodB elements } else e) := by
  unfold checkOrderTasks
  split
  · next hempty =>
    have hnil : orderTargetsOf elements = [] := List.isEmpty_iff.mp hempty
    have hnone : ∀ e ∈ elements, e.brokenProps.orderIndex.isSome = false := by
      intro e he
      have := List.filter_eq_nil_iff.mp hnil e he
      simpa [orderTargetsOf] using this
    calc elements = elements.map id := (List.map_id elements).symm
      _ = _ := List.map_congr_left (fun e he => by simp [hnone e he])
  · rfl

theorem length_insertByKey (x : GameElement) (l : List GameElement) :
    (insertByKey x l).length = l.length + 1 := by
  induction l with
  | nil => rfl
  | cons y ys ih =>
    unfold insertByKey
    split <;> simp [ih]

theorem length_foldl_insert (l acc : List GameElement) :
    (l.foldl (fun a x => insertByKey x a) acc).length = acc.length + l.length := by
  induction l generalizing acc with
  | nil => simp
  | cons x xs ih =>
    simp only [List.foldl_cons, ih, length_insertByKey, List.length_cons]
    omega

theorem length_sortByOrder (l : List GameElement) : (sortByOrder l).length = l.length := by
  simp [sortByOrder, length_foldl_insert]

/-- Unfolding `requiredMap.get(i)`: a required id comes from some order target
whose `brokenProps.orderIndex` is `i`. -/
theorem requiredId_spec {targets : List GameElement} {i : Nat} {rid : String}
    (h : requiredId targets i = some rid) :
    ∃ e ∈ targets, e.brokenProps.orderIndex = some i ∧ e.id = rid := by
  unfold requiredId at h
  cases hf : targets.reverse.find? (fun e => e.brokenProps.orderIndex == some i) with
  | none => rw [hf] at h; simp at h
  | some e =>
    rw [hf] at h
    simp only [Option.map_some'] at h
    have hmem : e ∈ targets := List.mem_reverse.mp (List.mem_of_find?_eq_some hf)
    have hp := List.find?_some hf
    have hidx : e.brokenProps.orderIndex = some i := by simpa using hp
    exact ⟨e, hmem, hidx, by simpa using h⟩

/-- Every order target lies below the element count. -/
def targetsInRange (elements : List GameElement) : Bool :=
  elements.all (fun e =>
    match e.brokenProps.orderIndex with
    | some t => decide (t < elements.length)
    | none => true)

/-- The `allGood` loop verdict holds exactly when every required position is
occupied (in the sorted sequence) by its required element — provided every
target position is in range, which the level generator guarantees
(`brokenProps.orderIndex = Math.floor(Math.random() * count)`). -/
theorem allGoodB_iff (elements : List GameElement) (hin : targetsInRange elements = true) :
    allGoodB elements = true ↔
      ∀ i rid, requiredId (orderTargetsOf elements) i = some rid →
        ∃ h : i < (sortByOrder elements).length, ((sortByOrder elements).get ⟨i, h⟩).id = rid := by
  unfold allGoodB
  rw [List.all_eq_true]
  constructor
  · intro hall i rid hreq
    obtain ⟨e, hmem, hidx, hid⟩ := requiredId_spec hreq
    have hmem' : e ∈ elements := List.mem_of_mem_filter hmem
    have hlt : i < elements.length := by
      have := List.all_eq_true.mp hin e hmem'
      rw [hidx] at this
      simpa using this
    have hlt' : i < (sortByOrder elements).length := by
      rw [length_sortByOrder]; exact hlt
    refine ⟨hlt', ?_⟩
    have := hall i (List.mem_range.mpr hlt')
    rw [hreq, List.get?_eq_get hlt'] at this
    simpa using this
  · intro hocc i hi
    cases hreq : requiredId (orderTargetsOf elements) i with
    | none => simp [hreq]
    | some rid =>
      obtain ⟨h, hid⟩ := hocc i rid hreq
      rw [List.get_eq_getElem] at hid
      simp [hreq, List.getElem?_eq_getElem h, hid]

/-! ## Claim theorems -/

/-- C6.  Tolerance boundaries of the repair verifier: a rotate defect with
target 90° is satisfied at `ui.rotation = 105` (angular distance 15, boundary
inclusive) and not at 106; the wraparound at 0/360 makes target 350° satisfied
at rotation 5; a slider defect with target 50 is satisfied at 48 and 52 and not
at 47 (`|sliderValue − target| ≤ 2`). -/
theorem tolerance_boundaries :
    ((applyFix 0 (some { rotation := some 105 }) rotateTargetEl).brokenProps.rotateBroken = none ∧
      (applyFix 0 (some { rotation := some 105 }) rotateTargetEl).fixed = true) ∧
    ((applyFix 0 (some { rotation := some 106 }) rotateTargetEl).brokenProps.rotateBroken = some 90 ∧
      (applyFix 0 (some { rotation := some 106 }) rotateTargetEl).fixed = false) ∧
    (applyFix 0 (some { rotation := some 5 }) rotateWrapEl).fixed = true ∧
    (applyFix 0 (some { sliderValue := some 48 }) sliderTargetEl).fixed = true ∧
    (applyFix 0 (some { sliderValue := some 52 }) sliderTargetEl).fixed = true ∧
    ((applyFix 0 (some { sliderValue := some 47 }) sliderTargetEl).fixed = false ∧
      (applyFix 0 (some { sliderValue := some 47 }) sliderTargetEl).brokenProps.sliderBroken = some 50) := by
  decide

/-- C9.  Invalid intents are silent no-ops: while `running = false` each of
`fixAttempt`, `useHint` and `usePowerUp` returns the state unchanged, and while
running, a power-up whose cost exceeds the current score leaves the state
unchanged (no error value exists — every transition is total). -/
theorem invalid_intents_noop :
    (∀ (svc : Service) (id : String) (payload : Option UIState) (now : Nat),
       svc.state.running = false → fixAttempt id payload now svc = svc) ∧
    (∀ (svc : Service) (elementId : Option String),
       svc.state.running = false → useHint elementId svc = svc) ∧
    (∀ (svc : Service) (powerUpId : String),
       svc.state.running = false → usePowerUp powerUpId svc = svc) ∧
    (∀ (svc : Service) (powerUpId : String) (p : PowerUp),
       svc.state.running = true →
       svc.state.powerUps.find? (fun q => q.id == powerUpId) = some p →
       svc.state.score < p.cost → usePowerUp powerUpId svc = svc) := by
  refine ⟨?_, ?_, ?_, ?_⟩
  · intro svc id payload now h
    simp [fixAttempt, h]
  · intro svc elementId h
    simp [useHint, h]
  · intro svc powerUpId h
    simp [usePowerUp, h]
  · intro svc powerUpId p hrun hfind hcost
    simp [usePowerUp, hrun, hfind, hcost]

/-- C9 witness: with the initial (not-running) state nothing moves, and with
`score = 100` the 300-cost freeze power-up is a no-op. -/
theorem invalid_intents_noop_witness :
    (svcStopped.state.running = false ∧
      fixAttempt "e" clickPay 0 svcStopped = svcStopped ∧
      useHint none svcStopped = svcStopped ∧
      usePowerUp "double" svcStopped = svcStopped) ∧
    (svcPoor.state.running = true ∧
      svcPoor.state.powerUps.find? (fun q => q.id == "freeze") =
        some { id := "freeze", name := "Freeze Time", icon := "❄️", cost := 300, active := false } ∧
      svcPoor.state.score < 300 ∧
      usePowerUp "freeze" svcPoor = svcPoor) :=
  ⟨⟨by decide, invalid_intents_noop.1 svcStopped "e" clickPay 0 (by decide),
    invalid_intents_noop.2.1 svcStopped none (by decide),
    invalid_intents_noop.2.2.1 svcStopped "double" (by decide)⟩,
   ⟨by decide, by decide, by decide,
    invalid_intents_noop.2.2.2 svcPoor "freeze"
      { id := "freeze", name := "Freeze Time", icon := "❄️", cost := 300, active := false }
      (by decide) (by decide) (by decide)⟩⟩

set_option maxRecDepth 4000 in
/-- C7.  Timer expiry, evaluated at the claim's own scenario: `startLevel(1)`
yields `timeLeft = 90`, and after 90 ticks with no repairs and no freeze the
score and level are unchanged as claimed — but the resulting state has
`running = true`, not `false`: `finishLevel`'s trailing
`checkAchievements({ ...s, score, level })` republishes a state built from the
snapshot taken *before* the `running: false` write, so the final published
state retains `running = true` (and the pre-expiry message).  The code
contradicts its own immediately preceding `running: false` publish; the claim
matches the evident intent, so this is a defect of the code, not of the spec. -/
theorem timer_expiry_runs_on :
    svcTimer.state.timeLeft = 90 ∧
    (tick^[90] svcTimer).state.score = svcTimer.state.score ∧
    (tick^[90] svcTimer).state.level = 1 ∧
    (tick^[90] svcTimer).state.message = svcTimer.state.message ∧
    (tick^[90] svcTimer).state.running = true := by
  decide

/-- C10.  The ordering pass never touches `brokenProps` (the `orderIndex`
entry is never cleared) and recomputes `fixed := allGood` for every
order-constrained element on every pass; consequently, in `svcUnfix` — where
the order group A→0, B→1, C→2 is satisfied and all three are fixed — a
`fixAttempt` on A whose payload moves A's `ui.orderIndex` to 10 makes the
global check fail and un-fixes the previously fixed element B. -/
theorem order_recheck_unfixes :
    (∀ elements : List GameElement,
       (checkOrderTasks elements).map (fun e => e.brokenProps) =
         elements.map (fun e => e.brokenProps)) ∧
    (∀ elements : List GameElement,
       checkOrderTasks elements =
         elements.map (fun e =>
           if e.brokenProps.orderIndex.isSome then { e with fixed := allGoodB elements } else e)) ∧
    ((svcUnfix.state.elements.get? 1).map (fun e => e.fixed) = some true ∧
      (((fixAttempt "A" (some { orderIndex := some 10 }) 0 svcUnfix).state.elements.get? 1).map
        (fun e => e.fixed) = some false)) := by
  refine ⟨?_, checkOrderTasks_eq_map, by decide⟩
  intro elements
  rw [checkOrderTasks_eq_map, List.map_map]
  exact List.map_congr_left (fun e _ => by by_cases h : e.brokenProps.orderIndex.isSome <;> simp [h])

/-! ## Projection lemmas (the achievement pass and `finishLevel` leave the
listed fields of the state they publish untouched) -/

theorem checkAchievements_elements (s : GameState) : (checkAchievements s).elements = s.elements := rfl

theorem checkAchievements_combo (s : GameState) : (checkAchievements s).combo = s.combo := rfl

theorem finishLevel_combo (success : Bool) (m : String) (svc : Service) :
    (finishLevel success m svc).state.combo = svc.state.combo := rfl

theorem finishLevel_maxCombo (success : Bool) (m : String) (svc : Service) :
    (finishLevel success m svc).state.maxCombo = svc.state.maxCombo := rfl

theorem finishLevel_totalFixed (success : Bool) (m : String) (svc : Service) :
    (finishLevel success m svc).state.totalFixed = svc.state.totalFixed := rfl

theorem finishLevel_lastFixTime (success : Bool) (m : String) (svc : Service) :
    (finishLevel success m svc).lastFixTime = svc.lastFixTime := rfl

theorem fixCore_elements (id : String) (payload : Option UIState) (now : Nat) (svc : Service) :
    (fixCore id payload now svc).state.elements = fixUpdated svc.state id payload now := rfl

/-- The raw combo produced by `fixCore` (zeta-expansion of `newCombo`). -/
theorem fixCore_combo_raw (id : String) (payload : Option UIState) (now : Nat) (svc : Service) :
    (fixCore id payload now svc).state.combo =
      (if fixedCount svc.state.elements < fixedCount (fixUpdated svc.state id payload now) then
        (if (now : Int) - (svc.lastFixTime : Int) < 3000 ∧ 0 < svc.state.combo
         then svc.state.combo + 1 else 1)
      else svc.state.combo) := rfl

theorem fixCore_combo_of_lt (id : String) (payload : Option UIState) (now : Nat) (svc : Service)
    (h : fixedCount svc.state.elements < fixedCount (fixUpdated svc.state id payload now)) :
    (fixCore id payload now svc).state.combo =
      (if (now : Int) - (svc.lastFixTime : Int) < 3000 ∧ 0 < svc.state.combo
       then svc.state.combo + 1 else 1) := by
  rw [fixCore_combo_raw, if_pos h]

theorem fixCore_lastFixTime_raw (id : String) (payload : Option UIState) (now : Nat) (svc : Service) :
    (fixCore id payload now svc).lastFixTime =
      (if fixedCount svc.state.elements < fixedCount (fixUpdated svc.state id payload now)
       then now else svc.lastFixTime) := rfl

theorem fixCore_lastFixTime_of_lt (id : String) (payload : Option UIState) (now : Nat) (svc : Service)
    (h : fixedCount svc.state.elements < fixedCount (fixUpdated svc.state id payload now)) :
    (fixCore id payload now svc).lastFixTime = now := by
  rw [fixCore_lastFixTime_raw, if_pos h]

/-- C1.  Order puzzle is all-or-nothing: the ordering pass (run by every
`fixAttempt`) rewrites exactly the order-constrained elements, giving all of
them one shared verdict `b` for their `fixed` flag (no partial credit, others
untouched), and `b` holds precisely when, in the sequence sorted by current
`ui.orderIndex`, every position required by some element's
`brokenProps.orderIndex` is occupied by that required element (last writer wins
for duplicated target positions, as in the source's `Map`).  The hypothesis —
every target position is below the element count — always holds for generated
levels. -/
theorem order_all_or_nothing (elements : List GameElement)
    (hin : targetsInRange elements = true) :
    ∃ b : Bool,
      checkOrderTasks elements =
        elements.map (fun e =>
          if e.brokenProps.orderIndex.isSome then { e with fixed := b } else e) ∧
      (b = true ↔
        ∀ i rid, requiredId (orderTargetsOf elements) i = some rid →
          ∃ h : i < (sortByOrder elements).length, ((sortByOrder elements).get ⟨i, h⟩).id = rid) :=
  ⟨allGoodB elements, checkOrderTasks_eq_map elements, allGoodB_iff elements hin⟩

/-- C1 witness, on the spec's own scenario: order targets `{0:A, 1:B, 2:C}`
with current order A=0, B=2, C=1 leaves none fixed, and after swapping B's and
C's `ui.orderIndex` all three become fixed in one pass. -/
theorem order_all_or_nothing_witness :
    targetsInRange elsOrderBad = true ∧
    (∃ b : Bool,
      checkOrderTasks elsOrderBad =
        elsOrderBad.map (fun e =>
          if e.brokenProps.orderIndex.isSome then { e with fixed := b } else e) ∧
      (b = true ↔
        ∀ i rid, requiredId (orderTargetsOf elsOrderBad) i = some rid →
          ∃ h : i < (sortByOrder elsOrderBad).length,
            ((sortByOrder elsOrderBad).get ⟨i, h⟩).id = rid)) ∧
    (checkOrderTasks elsOrderBad).all (fun e => !e.fixed) = true ∧
    (checkOrderTasks elsOrderGood).all (fun e => e.fixed) = true :=
  ⟨by decide, order_all_or_nothing elsOrderBad (by decide), by decide, by decide⟩

/-- C2 counterexample: in `svcFixedTarget` (running, element "F" already
fixed), `fixAttempt("F", { rotation: 5 })` does *not* leave the game state
unchanged — the service has no fixed-element guard (the guard lives in the
component layer), so the payload is merged into the fixed element's `ui`. -/
theorem fixAttempt_on_fixed_changes_state :
    svcFixedTarget.state.running = true ∧
    (∀ e ∈ svcFixedTarget.state.elements, e.id = "F" → e.fixed = true) ∧
    fixAttempt "F" (some { rotation := some 5 }) 0 svcFixedTarget ≠ svcFixedTarget := by
  decide

/-- C3 counterexample: `totalFixed` is *not* non-decreasing.  In `svcUnfix`
(order group satisfied, `totalFixed = 3`), one `fixAttempt` that drags A's
`ui.orderIndex` to 10 makes the order check fail, un-fixes A, B, C, and adds
the negative fixed-count change to `totalFixed`, dropping it from 3 to 0. -/
theorem totalFixed_decreases :
    svcUnfix.state.running = true ∧
    svcUnfix.state.totalFixed = 3 ∧
    (fixAttempt "A" (some { orderIndex := some 10 }) 0 svcUnfix).state.totalFixed = 0 := by
  decide

/-- The raw score produced by `fixCore` (zeta-expansion of `gained`, in which
`newCombo` occurs as its own conditional). -/
theorem fixCore_score_raw (id : String) (payload : Option UIState) (now : Nat) (svc : Service) :
    (fixCore id payload now svc).state.score =
      svc.state.score +
        (if fixedCount svc.state.elements < fixedCount (fixUpdated svc.state id payload now) then
          ((fixedCount (fixUpdated svc.state id payload now) - fixedCount svc.state.elements) *
              (100 * svc.state.level) +
            (if 1 <
                (if fixedCount svc.state.elements < fixedCount (fixUpdated svc.state id payload now)
                 then (if (now : Int) - (svc.lastFixTime : Int) < 3000 ∧ 0 < svc.state.combo
                       then svc.state.combo + 1 else 1)
                 else svc.state.combo)
             then (100 * svc.state.level) *
                (if fixedCount svc.state.elements < fixedCount (fixUpdated svc.state id payload now)
                 then (if (now : Int) - (svc.lastFixTime : Int) < 3000 ∧ 0 < svc.state.combo
                       then svc.state.combo + 1 else 1)
                 else svc.state.combo) / 4
             else 0) +
            svc.state.timeLeft * 2) *
          (if powerUpActive svc.state "double" then 2 else 1)
        else 0) := rfl

theorem fixCore_score_of_lt (id : String) (payload : Option UIState) (now : Nat) (svc : Service)
    (h : fixedCount svc.state.elements < fixedCount (fixUpdated svc.state id payload now)) :
    (fixCore id payload now svc).state.score =
      svc.state.score +
        ((fixedCount (fixUpdated svc.state id payload now) - fixedCount svc.state.elements) *
            (100 * svc.state.level) +
          (if 1 < (fixCore id payload now svc).state.combo
           then (100 * svc.state.level) * (fixCore id payload now svc).state.combo / 4 else 0) +
          svc.state.timeLeft * 2) *
        (if powerUpActive svc.state "double" then 2 else 1) := by
  rw [fixCore_score_raw, fixCore_combo_of_lt id payload now svc h]
  simp only [if_pos h]

theorem fixCore_score_no_increase (id : String) (payload : Option UIState) (now : Nat)
    (svc : Service)
    (h : ¬ fixedCount svc.state.elements < fixedCount (fixUpdated svc.state id payload now)) :
    (fixCore id payload now svc).state.score = svc.state.score := by
  rw [fixCore_score_raw, if_neg h, Nat.add_zero]

/-- In `fixAttempt`'s running case the result is `fixCore`, possibly piped
through `finishLevel(true, ...)` when every element ended fixed. -/
theorem fixAttempt_eq_core (id : String) (payload : Option UIState) (now : Nat) (svc : Service)
    (hrun : svc.state.running = true)
    (hnotall : (fixUpdated svc.state id payload now).all (fun e => e.fixed) = false) :
    fixAttempt id payload now svc = fixCore id payload now svc := by
  have hcond : (fixCore id payload now svc).state.elements.all (fun e => e.fixed) = false := by
    rw [fixCore_elements]; exact hnotall
  unfold fixAttempt
  rw [hrun]
  simp [hcond]

/-- `Math.floor(100·level · (combo · 0.25))` is exact: it is `Nat` division of
`100·level·combo` by 4. -/
theorem comboBonus_floor (L c : Nat) :
    (100 * L) * c / 4 = ⌊(100 * (L : ℚ) * (c : ℚ) * 0.25)⌋₊ := by
  have h1 : (100 * (L : ℚ) * (c : ℚ) * 0.25) = ((25 * L * c : ℕ) : ℚ) := by
    push_cast
    ring_nf
  rw [h1, Nat.floor_natCast]
  have h2 : (100 * L) * c = 4 * (25 * L * c) := by ring
  rw [h2]
  exact Nat.mul_div_cancel_left _ (by norm_num)

/-- `Math.floor(timeLeft * 2)` on a natural number of seconds. -/
theorem timeBonus_floor (t : Nat) : t * 2 = ⌊((t : ℚ) * 2)⌋₊ := by
  have h : ((t : ℚ) * 2) = ((t * 2 : ℕ) : ℚ) := by push_cast; ring
  rw [h, Nat.floor_natCast]

/-- C5.  Combo chain rule: whenever a `fixAttempt` raises the fixed count, the
new combo is `combo + 1` if the repair lands strictly within 3000 ms of the
previous repair (`lastFixTime`) with a positive running combo, and 1 otherwise;
`lastFixTime` becomes the repair's timestamp.  In particular (second conjunct,
the spec's decay scenario) two repairs 2000 ms apart yield combo 2 and a third
repair 4000 ms after the second yields combo 1, not 3. -/
theorem combo_chain_rule :
    (∀ (id : String) (payload : Option UIState) (now : Nat) (svc : Service),
       svc.state.running = true →
       fixedCount svc.state.elements < fixedCount (fixUpdated svc.state id payload now) →
       (fixAttempt id payload now svc).state.combo =
         (if (now : Int) - (svc.lastFixTime : Int) < 3000 ∧ 0 < svc.state.combo
          then svc.state.combo + 1 else 1) ∧
       (fixAttempt id payload now svc).lastFixTime = now) ∧
    (comboFix1.state.combo = 1 ∧ comboFix2.state.combo = 2 ∧ comboFix3.state.combo = 1) := by
  constructor
  · intro id payload now svc hrun hinc
    have hfa : fixAttempt id payload now svc =
        (if (fixCore id payload now svc).state.elements.all (fun e => e.fixed)
         then finishLevel true "✨ Level Complete!" (fixCore id payload now svc)
         else fixCore id payload now svc) := by
      unfold fixAttempt
      rw [hrun]
      simp
    rw [hfa]
    split
    · rw [finishLevel_combo, finishLevel_lastFixTime]
      exact ⟨fixCore_combo_of_lt id payload now svc hinc,
             fixCore_lastFixTime_of_lt id payload now svc hinc⟩
    · exact ⟨fixCore_combo_of_lt id payload now svc hinc,
             fixCore_lastFixTime_of_lt id payload now svc hinc⟩
  · decide

/-- C5 witness: the first repair of `svcCombo` at `now = 10000` (no prior
repair within the window) lands with rule verdict 1. -/
theorem combo_chain_rule_witness :
    (svcCombo.state.running = true ∧
      fixedCount svcCombo.state.elements < fixedCount (fixUpdated svcCombo.state "e1" clickPay 10000)) ∧
    ((fixAttempt "e1" clickPay 10000 svcCombo).state.combo =
      (if (10000 : Int) - (svcCombo.lastFixTime : Int) < 3000 ∧ 0 < svcCombo.state.combo
       then svcCombo.state.combo + 1 else 1) ∧
     (fixAttempt "e1" clickPay 10000 svcCombo).lastFixTime = 10000) :=
  ⟨⟨by decide, by decide⟩,
   combo_chain_rule.1 "e1" clickPay 10000 svcCombo (by decide) (by decide)⟩

/-- C4.  Scoring formula: a `fixAttempt` that raises the fixed count by
`diff ≥ 1` (and does not finish the level — completion bonuses are C8's
territory) gains `(diff · (100·level) + comboBonus + timeBonus) · multiplier`,
with `comboBonus = ⌊100·level·combo·0.25⌋` for the resulting combo when it
exceeds 1 (else 0), `timeBonus = ⌊timeLeft·2⌋`, and the whole sum doubled when
the `double` power-up is active; a `fixAttempt` that does not raise the fixed
count gains nothing. -/
theorem scoring_formula :
    ∀ (id : String) (payload : Option UIState) (now : Nat) (svc : Service),
      svc.state.running = true →
      (fixUpdated svc.state id payload now).all (fun e => e.fixed) = false →
      ((fixedCount svc.state.elements < fixedCount (fixUpdated svc.state id payload now) →
        (fixAttempt id payload now svc).state.score =
          svc.state.score +
            ((fixedCount (fixUpdated svc.state id payload now) - fixedCount svc.state.elements) *
                (100 * svc.state.level) +
              (if 1 < (fixAttempt id payload now svc).state.combo then
                ⌊(100 * (svc.state.level : ℚ) *
                    (((fixAttempt id payload now svc).state.combo : ℕ) : ℚ) * 0.25)⌋₊
               else 0) +
              ⌊((svc.state.timeLeft : ℚ) * 2)⌋₊) *
            (if powerUpActive svc.state "double" then 2 else 1)) ∧
       (¬ fixedCount svc.state.elements < fixedCount (fixUpdated svc.state id payload now) →
        (fixAttempt id payload now svc).state.score = svc.state.score)) := by
  intro id payload now svc hrun hnotall
  have hfa := fixAttempt_eq_core id payload now svc hrun hnotall
  constructor
  · intro hlt
    rw [hfa, fixCore_score_of_lt id payload now svc hlt]
    rw [comboBonus_floor, timeBonus_floor]
  · intro hnlt
    rw [hfa, fixCore_score_no_increase id payload now svc hnlt]

/-- C4 witness: the first repair of `svcCombo` (level 1, 60 s left, combo
verdict 1, no double power-up) gains `1·100 + 0 + 120 = 220` points, matching
the formula. -/
theorem scoring_formula_witness :
    (svcCombo.state.running = true ∧
      (fixUpdated svcCombo.state "e1" clickPay 10000).all (fun e => e.fixed) = false ∧
      fixedCount svcCombo.state.elements < fixedCount (fixUpdated svcCombo.state "e1" clickPay 10000)) ∧
    (fixAttempt "e1" clickPay 10000 svcCombo).state.score =
      svcCombo.state.score +
        ((fixedCount (fixUpdated svcCombo.state "e1" clickPay 10000) -
              fixedCount svcCombo.state.elements) *
            (100 * svcCombo.state.level) +
          (if 1 < (fixAttempt "e1" clickPay 10000 svcCombo).state.combo then
            ⌊(100 * (svcCombo.state.level : ℚ) *
                (((fixAttempt "e1" clickPay 10000 svcCombo).state.combo : ℕ) : ℚ) * 0.25)⌋₊
           else 0) +
          ⌊((svcCombo.state.timeLeft : ℚ) * 2)⌋₊) *
        (if powerUpActive svcCombo.state "double" then 2 else 1) :=
  ⟨⟨by decide, by decide, by decide⟩,
   (scoring_formula "e1" clickPay 10000 svcCombo (by decide) (by decide)).1 (by decide)⟩

/-- C8.  Level completion: `finishLevel(true, ...)` awards `timeLeft * 8` plus
`maxCombo * 50` on top of the current score, advances the level by exactly one
(uncapped, for every starting level), and persists the best score exactly when
the final score improves it; and a running `fixAttempt` after which every
element is fixed routes into exactly that `finishLevel(true, ...)` call. -/
theorem level_completion :
    (∀ (svc : Service) (msg : String),
       (finishLevel true msg svc).state.score =
         svc.state.score + svc.state.timeLeft * 8 + svc.state.maxCombo * 50 ∧
       (finishLevel true msg svc).state.level = svc.state.level + 1 ∧
       (finishLevel true msg svc).storage.best =
         (if svc.storage.best <
              svc.state.score + svc.state.timeLeft * 8 + svc.state.maxCombo * 50
          then svc.state.score + svc.state.timeLeft * 8 + svc.state.maxCombo * 50
          else svc.storage.best)) ∧
    (∀ (id : String) (payload : Option UIState) (now : Nat) (svc : Service),
       svc.state.running = true →
       (fixUpdated svc.state id payload now).all (fun e => e.fixed) = true →
       fixAttempt id payload now svc =
         finishLevel true "✨ Level Complete!" (fixCore id payload now svc)) := by
  constructor
  · intro svc msg
    exact ⟨rfl, rfl, rfl⟩
  · intro id payload now svc hrun hall
    have hcond : (fixCore id payload now svc).state.elements.all (fun e => e.fixed) = true := by
      rw [fixCore_elements]; exact hall
    unfold fixAttempt
    rw [hrun]
    simp [hcond]

/-- C8 witness: repairing the single remaining element of `svcComplete`
completes the level through `finishLevel(true, ...)`, which advances the level
from 1 to 2. -/
theorem level_completion_witness :
    (svcComplete.state.running = true ∧
      (fixUpdated svcComplete.state "solo" clickPay 0).all (fun e => e.fixed) = true) ∧
    fixAttempt "solo" clickPay 0 svcComplete =
      finishLevel true "✨ Level Complete!" (fixCore "solo" clickPay 0 svcComplete) ∧
    (finishLevel true "m" svcComplete).state.level = svcComplete.state.level + 1 :=
  ⟨⟨by decide, by decide⟩,
   level_completion.2 "solo" clickPay 0 svcComplete (by decide) (by decide),
   (level_completion.1 svcComplete "m").2.1⟩

/-! ## Helper lemmas for the fixed-element no-op analysis -/

/-- On an element whose `brokenProps` is fully cleared and which is already
fixed, the per-element verifier only merges the payload into `ui`: no check is
active, `fixed` stays `true`, `fixedAt` is untouched. -/
theorem applyFix_cleared (now : Nat) (payload : Option UIState) (el : GameElement)
    (hfix : el.fixed = true) (hbp : el.brokenProps = {}) :
    applyFix now payload el = { el with ui := mergeUI el.ui (payload.getD {}) } := by
  obtain ⟨eid, ety, ebp, ed, efx, eh, eui, efa⟩ := el
  simp only at hfix hbp
  subst hfix
  subst hbp
  simp [applyFix, truthyB, truthyN, truthyNat, truthyS, truthyQ, BrokenProps.allCleared]

/-- `filter (·.fixed) |>.length` is stable under a map that preserves every
element's `fixed` flag. -/
theorem fixedCount_map_congr (f : GameElement → GameElement) :
    ∀ l : List GameElement, (∀ e ∈ l, (f e).fixed = e.fixed) →
      fixedCount (l.map f) = fixedCount l := by
  intro l
  induction l with
  | nil => intro _; rfl
  | cons x xs ih =>
    intro h
    have hx : (f x).fixed = x.fixed := h x (List.mem_cons_self x xs)
    have ihx := ih (fun e he => h e (List.mem_cons_of_mem x he))
    simp only [List.map_cons, fixedCount, List.filter_cons, hx] at ihx ⊢
    cases hfx : x.fixed <;> simp [hfx, ihx]

/-- With no order target anywhere, the ordering pass is the identity. -/
theorem checkOrderTasks_no_targets (l : List GameElement)
    (h : ∀ e ∈ l, e.brokenProps.orderIndex = none) : checkOrderTasks l = l := by
  have hnil : orderTargetsOf l = [] :=
    List.filter_eq_nil_iff.mpr (fun e he => by simp [h e he])
  unfold checkOrderTasks
  rw [hnil]
  rfl

/-- The element list after merging `payload` into the `ui` of every element
whose id matches (what a `fixAttempt` on a cleared, already-fixed element
amounts to). -/
def fixedMergeMap (id : String) (payload : Option UIState) (l : List GameElement) :
    List GameElement :=
  l.map (fun e => if e.id = id then { e with ui := mergeUI e.ui (payload.getD {}) } else e)

theorem fixCore_maxCombo_raw (id : String) (payload : Option UIState) (now : Nat) (svc : Service) :
    (fixCore id payload now svc).state.maxCombo =
      max svc.state.maxCombo
        (if fixedCount svc.state.elements < fixedCount (fixUpdated svc.state id payload now) then
          (if (now : Int) - (svc.lastFixTime : Int) < 3000 ∧ 0 < svc.state.combo
           then svc.state.combo + 1 else 1)
        else svc.state.combo) := rfl

theorem fixCore_totalFixed (id : String) (payload : Option UIState) (now : Nat) (svc : Service) :
    (fixCore id payload now svc).state.totalFixed =
      svc.state.totalFixed +
        ((fixedCount (fixUpdated svc.state id payload now) : Int) -
         (fixedCount svc.state.elements : Int)) := rfl

theorem fixCore_timeLeft (id : String) (payload : Option UIState) (now : Nat) (svc : Service) :
    (fixCore id payload now svc).state.timeLeft = svc.state.timeLeft := rfl

theorem fixCore_level (id : String) (payload : Option UIState) (now : Nat) (svc : Service) :
    (fixCore id payload now svc).state.level = svc.state.level := rfl

theorem fixCore_hintsUsed (id : String) (payload : Option UIState) (now : Nat) (svc : Service) :
    (fixCore id payload now svc).state.hintsUsed = svc.state.hintsUsed := rfl

theorem fixCore_running (id : String) (payload : Option UIState) (now : Nat) (svc : Service) :
    (fixCore id payload now svc).state.running = svc.state.running := rfl

theorem fixCore_storage (id : String) (payload : Option UIState) (now : Nat) (svc : Service) :
    (fixCore id payload now svc).storage = svc.storage := rfl

theorem fixCore_message_no_increase (id : String) (payload : Option UIState) (now : Nat)
    (svc : Service)
    (h : ¬ fixedCount svc.state.elements < fixedCount (fixUpdated svc.state id payload now)) :
    (fixCore id payload now svc).state.message = svc.state.message := by
  unfold fixCore
  simp only [if_neg h]
  rfl

/-- While running, `fixAttempt` is `fixCore` routed through the
level-completion check. -/
theorem fixAttempt_running_eq (id : String) (payload : Option UIState) (now : Nat) (svc : Service)
    (hrun : svc.state.running = true) :
    fixAttempt id payload now svc =
      (if (fixCore id payload now svc).state.elements.all (fun e => e.fixed)
       then finishLevel true "✨ Level Complete!" (fixCore id payload now svc)
       else fixCore id payload now svc) := by
  unfold fixAttempt
  rw [hrun]
  simp

/-- C2 (amended).  `fixAttempt` on an already-fixed element is not a full
no-op — the service has no fixed-element guard, so the payload is merged into
the element's `ui` — but nothing else of the game moves: under the natural
invariants of such a state (the target's `brokenProps` fully cleared, no order
targets in the level, some element still unfixed, `combo ≤ maxCombo`), the
elements become exactly `fixedMergeMap` of the old ones (only the target's `ui`
changes), and score, combo, maxCombo, totalFixed, message, timeLeft, level,
hintsUsed, running, `lastFixTime` and the persisted storage are all unchanged
(achievements are merely re-evaluated, as after any event). -/
theorem fixAttempt_on_cleared_fixed_element (svc : Service) (id : String)
    (payload : Option UIState) (now : Nat)
    (hrun : svc.state.running = true)
    (htarget : ∀ e ∈ svc.state.elements, e.id = id → e.fixed = true ∧ e.brokenProps = {})
    (horder : ∀ e ∈ svc.state.elements, e.brokenProps.orderIndex = none)
    (hsome : ∃ e ∈ svc.state.elements, e.fixed = false)
    (hcombo : svc.state.combo ≤ svc.state.maxCombo) :
    (fixAttempt id payload now svc).state.elements = fixedMergeMap id payload svc.state.elements ∧
    (fixAttempt id payload now svc).state.score = svc.state.score ∧
    (fixAttempt id payload now svc).state.combo = svc.state.combo ∧
    (fixAttempt id payload now svc).state.maxCombo = svc.state.maxCombo ∧
    (fixAttempt id payload now svc).state.totalFixed = svc.state.totalFixed ∧
    (fixAttempt id payload now svc).state.message = svc.state.message ∧
    (fixAttempt id payload now svc).state.timeLeft = svc.state.timeLeft ∧
    (fixAttempt id payload now svc).state.level = svc.state.level ∧
    (fixAttempt id payload now svc).state.hintsUsed = svc.state.hintsUsed ∧
    (fixAttempt id payload now svc).state.running = svc.state.running ∧
    (fixAttempt id payload now svc).lastFixTime = svc.lastFixTime ∧
    (fixAttempt id payload now svc).storage = svc.storage := by
  have hmapeq :
      svc.state.elements.map (fun el => if el.id ≠ id then el else applyFix now payload el) =
        fixedMergeMap id payload svc.state.elements := by
    apply List.map_congr_left
    intro e he
    by_cases hid : e.id = id
    · obtain ⟨hfx, hbp⟩ := htarget e he hid
      simp [hid, applyFix_cleared now payload e hfx hbp]
    · simp [hid]
  have horder2 : ∀ e ∈ fixedMergeMap id payload svc.state.elements,
      e.brokenProps.orderIndex = none := by
    intro e he
    rw [fixedMergeMap, List.mem_map] at he
    obtain ⟨a, ha, rfl⟩ := he
    by_cases hid : a.id = id
    · simpa [hid] using horder a ha
    · simpa [hid] using horder a ha
  have hupd : fixUpdated svc.state id payload now = fixedMergeMap id payload svc.state.elements := by
    unfold fixUpdated
    rw [hmapeq]
    exact checkOrderTasks_no_targets _ horder2
  have hfixeq : ∀ e ∈ svc.state.elements,
      ((fun e => if e.id = id then { e with ui := mergeUI e.ui (payload.getD {}) } else e) e).fixed
        = e.fixed := by
    intro e _
    by_cases hid : e.id = id <;> simp [hid]
  have hcount : fixedCount (fixedMergeMap id payload svc.state.elements) =
      fixedCount svc.state.elements :=
    fixedCount_map_congr _ svc.state.elements hfixeq
  have hnotall : (fixUpdated svc.state id payload now).all (fun e => e.fixed) = false := by
    rw [hupd]
    obtain ⟨e, he, hef⟩ := hsome
    have hne : ¬ e.id = id := by
      intro hid
      rw [(htarget e he hid).1] at hef
      cases hef
    have hmem : (fun e => if e.id = id then { e with ui := mergeUI e.ui (payload.getD {}) } else e) e
        ∈ fixedMergeMap id payload svc.state.elements := List.mem_map_of_mem _ he
    simp only [if_neg hne] at hmem
    cases hall : (fixedMergeMap id payload svc.state.elements).all (fun e => e.fixed)
    · rfl
    · have := List.all_eq_true.mp hall e hmem
      rw [hef] at this
      cases this
  have hfa : fixAttempt id payload now svc = fixCore id payload now svc :=
    fixAttempt_eq_core id payload now svc hrun hnotall
  have hnlt : ¬ fixedCount svc.state.elements < fixedCount (fixUpdated svc.state id payload now) := by
    rw [hupd, hcount]
    omega
  refine ⟨?_, ?_, ?_, ?_, ?_, ?_, ?_, ?_, ?_, ?_, ?_, ?_⟩
  · rw [hfa, fixCore_elements, hupd]
  · rw [hfa, fixCore_score_no_increase id payload now svc hnlt]
  · rw [hfa, fixCore_combo_raw, if_neg hnlt]
  · rw [hfa, fixCore_maxCombo_raw, if_neg hnlt]
    exact Nat.max_eq_left hcombo
  · rw [hfa, fixCore_totalFixed, hupd, hcount]
    simp
  · rw [hfa, fixCore_message_no_increase id payload now svc hnlt]
  · rw [hfa, fixCore_timeLeft]
  · rw [hfa, fixCore_level]
  · rw [hfa, fixCore_hintsUsed]
  · rw [hfa, fixCore_running]
  · rw [hfa, fixCore_lastFixTime_raw, if_neg hnlt]
  · rw [hfa, fixCore_storage]

/-- C2 witness: the amended statement evaluated on `svcFixedTarget` with the
counterexample's own payload. -/
theorem fixAttempt_on_cleared_fixed_element_witness :
    (svcFixedTarget.state.running = true ∧
      (∀ e ∈ svcFixedTarget.state.elements, e.id = "F" → e.fixed = true ∧ e.brokenProps = {}) ∧
      (∀ e ∈ svcFixedTarget.state.elements, e.brokenProps.orderIndex = none) ∧
      (∃ e ∈ svcFixedTarget.state.elements, e.fixed = false) ∧
      svcFixedTarget.state.combo ≤ svcFixedTarget.state.maxCombo) ∧
    ((fixAttempt "F" (some { rotation := some 5 }) 0 svcFixedTarget).state.elements =
        fixedMergeMap "F" (some { rotation := some 5 }) svcFixedTarget.state.elements ∧
      (fixAttempt "F" (some { rotation := some 5 }) 0 svcFixedTarget).state.score =
        svcFixedTarget.state.score ∧
      (fixAttempt "F" (some { rotation := some 5 }) 0 svcFixedTarget).state.combo =
        svcFixedTarget.state.combo ∧
      (fixAttempt "F" (some { rotation := some 5 }) 0 svcFixedTarget).state.maxCombo =
        svcFixedTarget.state.maxCombo ∧
      (fixAttempt "F" (some { rotation := some 5 }) 0 svcFixedTarget).state.totalFixed =
        svcFixedTarget.state.totalFixed ∧
      (fixAttempt "F" (some { rotation := some 5 }) 0 svcFixedTarget).state.message =
        svcFixedTarget.state.message ∧
      (fixAttempt "F" (some { rotation := some 5 }) 0 svcFixedTarget).state.timeLeft =
        svcFixedTarget.state.timeLeft ∧
      (fixAttempt "F" (some { rotation := some 5 }) 0 svcFixedTarget).state.level =
        svcFixedTarget.state.level ∧
      (fixAttempt "F" (some { rotation := some 5 }) 0 svcFixedTarget).state.hintsUsed =
        svcFixedTarget.state.hintsUsed ∧
      (fixAttempt "F" (some { rotation := some 5 }) 0 svcFixedTarget).state.running =
        svcFixedTarget.state.running ∧
      (fixAttempt "F" (some { rotation := some 5 }) 0 svcFixedTarget).lastFixTime =
        svcFixedTarget.lastFixTime ∧
      (fixAttempt "F" (some { rotation := some 5 }) 0 svcFixedTarget).storage =
        svcFixedTarget.storage) :=
  ⟨⟨by decide, by decide, by decide, by decide, by decide⟩,
   fixAttempt_on_cleared_fixed_element svcFixedTarget "F" (some { rotation := some 5 }) 0
     (by decide) (by decide) (by decide) (by decide) (by decide)⟩

/-! ## Session monotonicity machinery -/

/-- Pointwise achievement evolution: same ids in the same order, and an
unlocked achievement never re-locks. -/
def achLe (l₁ l₂ : List Achievement) : Prop :=
  List.Forall₂ (fun a b => a.id = b.id ∧ (a.unlocked = true → b.unlocked = true)) l₁ l₂

theorem achLe_refl (l : List Achievement) : achLe l l :=
  List.forall₂_same.mpr (fun _ _ => ⟨rfl, fun h => h⟩)

theorem achLe_trans {l₁ l₂ l₃ : List Achievement} (h12 : achLe l₁ l₂) (h23 : achLe l₂ l₃) :
    achLe l₁ l₃ := by
  induction h12 generalizing l₃ with
  | nil => cases h23; exact List.Forall₂.nil
  | cons hab _ ih =>
    cases h23 with
    | cons hbc ht' => exact List.Forall₂.cons ⟨hab.1.trans hbc.1, fun u => hbc.2 (hab.2 u)⟩ (ih ht')

/-- The achievement pass only unlocks: it maps every locked achievement to one
with the same id and re-evaluated `unlocked`, and returns unlocked ones
untouched. -/
theorem achLe_checkAchievements (s : GameState) {l : List Achievement}
    (h : l = s.achievements) : achLe l (checkAchievements s).achievements := by
  subst h
  show achLe s.achievements (s.achievements.map _)
  rw [achLe, List.forall₂_map_right_iff]
  apply List.forall₂_same.mpr
  intro a _
  by_cases hu : a.unlocked <;> simp [hu]

theorem fixCore_achLe (id : String) (payload : Option UIState) (now : Nat) (svc : Service) :
    achLe svc.state.achievements (fixCore id payload now svc).state.achievements := by
  simp only [fixCore]
  exact achLe_checkAchievements _ rfl

theorem finishLevel_achLe (success : Bool) (m : String) (svc : Service) :
    achLe svc.state.achievements (finishLevel success m svc).state.achievements := by
  simp only [finishLevel]
  exact achLe_checkAchievements _ rfl

theorem useHint_achLe (eid : Option String) (svc : Service) :
    achLe svc.state.achievements (useHint eid svc).state.achievements := by
  simp only [useHint]
  split
  · exact achLe_refl _
  · split
    · split
      · exact achLe_checkAchievements _ rfl
      · exact achLe_checkAchievements _ rfl
    · split
      · exact achLe_checkAchievements _ rfl
      · exact achLe_checkAchievements _ rfl

theorem fixCore_maxCombo_le (id : String) (payload : Option UIState) (now : Nat) (svc : Service) :
    svc.state.maxCombo ≤ (fixCore id payload now svc).state.maxCombo := by
  rw [fixCore_maxCombo_raw]
  exact Nat.le_max_left _ _

/-- Every transition can only raise `maxCombo` and only unlock achievements. -/
theorem step_mono (st : Step) (svc : Service) :
    svc.state.maxCombo ≤ (applyStep st svc).state.maxCombo ∧
    achLe svc.state.achievements (applyStep st svc).state.achievements := by
  cases st with
  | fix id payload now =>
    constructor
    · simp only [applyStep, fixAttempt]
      split
      · exact le_refl _
      · split
        · rw [finishLevel_maxCombo]
          exact fixCore_maxCombo_le id payload now svc
        · exact fixCore_maxCombo_le id payload now svc
    · simp only [applyStep, fixAttempt]
      split
      · exact achLe_refl _
      · split
        · exact achLe_trans (fixCore_achLe id payload now svc) (finishLevel_achLe _ _ _)
        · exact fixCore_achLe id payload now svc
  | hint eid =>
    constructor
    · simp only [applyStep, useHint]
      split
      · exact le_refl _
      · split <;> (try split) <;> exact le_refl _
    · exact useHint_achLe eid svc
  | power pid =>
    constructor
    · simp only [applyStep, usePowerUp]
      split
      · exact le_refl _
      · split
        · exact le_refl _
        · split
          · exact le_refl _
          · split <;> exact le_refl _
    · simp only [applyStep, usePowerUp]
      split
      · exact achLe_refl _
      · split
        · exact achLe_refl _
        · split
          · exact achLe_refl _
          · split <;> exact achLe_refl _
  | tick =>
    constructor
    · simp only [applyStep, tick]
      split
      · exact le_refl _
      · split
        · exact le_refl _
        · split
          · rw [finishLevel_maxCombo]
          · exact le_refl _
    · simp only [applyStep, tick]
      split
      · exact achLe_refl _
      · split
        · exact achLe_refl _
        · split
          · exact finishLevel_achLe _ _ _
          · exact achLe_refl _
  | start level els => exact ⟨le_refl _, achLe_refl _⟩
  | stop => exact ⟨le_refl _, achLe_refl _⟩
  | finish success m =>
    exact ⟨le_of_eq (finishLevel_maxCombo success m svc).symm, finishLevel_achLe success m svc⟩

theorem runSteps_maxCombo (steps : List Step) (svc : Service) :
    svc.state.maxCombo ≤ (runSteps steps svc).state.maxCombo := by
  induction steps generalizing svc with
  | nil => exact le_refl _
  | cons st rest ih => exact le_trans (step_mono st svc).1 (ih (applyStep st svc))

theorem runSteps_achLe (steps : List Step) (svc : Service) :
    achLe svc.state.achievements (runSteps steps svc).state.achievements := by
  induction steps generalizing svc with
  | nil => exact achLe_refl _
  | cons st rest ih => exact achLe_trans (step_mono st svc).2 (ih (applyStep st svc))

/-- Every transition other than `fixAttempt` leaves `totalFixed` unchanged
(hence non-decreasing). -/
theorem step_totalFixed (st : Step) (svc : Service) (h : st.isFix = false) :
    svc.state.totalFixed ≤ (applyStep st svc).state.totalFixed := by
  cases st with
  | fix id payload now => simp [Step.isFix] at h
  | hint eid =>
    simp only [applyStep, useHint]
    split
    · exact le_refl _
    · split <;> (try split) <;> exact le_refl _
  | power pid =>
    simp only [applyStep, usePowerUp]
    split
    · exact le_refl _
    · split
      · exact le_refl _
      · split
        · exact le_refl _
        · split <;> exact le_refl _
  | tick =>
    simp only [applyStep, tick]
    split
    · exact le_refl _
    · split
      · exact le_refl _
      · split
        · rw [finishLevel_totalFixed]
        · exact le_refl _
  | start level els => exact le_refl _
  | stop => exact le_refl _
  | finish success m => exact le_of_eq (finishLevel_totalFixed success m svc).symm

/-- A running `fixAttempt` moves `totalFixed` by exactly the (possibly
negative) change in fixed-element count. -/
theorem fixAttempt_totalFixed (id : String) (payload : Option UIState) (now : Nat) (svc : Service)
    (hrun : svc.state.running = true) :
    (fixAttempt id payload now svc).state.totalFixed =
      svc.state.totalFixed +
        ((fixedCount (fixUpdated svc.state id payload now) : Int) -
         (fixedCount svc.state.elements : Int)) := by
  rw [fixAttempt_running_eq id payload now svc hrun]
  split
  · rw [finishLevel_totalFixed]
    exact fixCore_totalFixed id payload now svc
  · exact fixCore_totalFixed id payload now svc

/-- C3 (amended).  Over every sequence of transitions, `maxCombo` never
decreases and the unlocked-achievement set never loses a member (`achLe`);
`totalFixed`, however, is only non-decreasing under transitions other than
`fixAttempt`: a running `fixAttempt` adds the — possibly negative — change in
fixed-element count, which drops below zero when the order-group recheck
un-fixes previously fixed order-constrained elements (see the
counterexample). -/
theorem session_monotonicity :
    (∀ (svc : Service) (steps : List Step),
       svc.state.maxCombo ≤ (runSteps steps svc).state.maxCombo) ∧
    (∀ (svc : Service) (steps : List Step),
       achLe svc.state.achievements (runSteps steps svc).state.achievements) ∧
    (∀ (svc : Service) (st : Step), st.isFix = false →
       svc.state.totalFixed ≤ (applyStep st svc).state.totalFixed) ∧
    (∀ (svc : Service) (id : String) (payload : Option UIState) (now : Nat),
       svc.state.running = true →
       (fixAttempt id payload now svc).state.totalFixed =
         svc.state.totalFixed +
           ((fixedCount (fixUpdated svc.state id payload now) : Int) -
            (fixedCount svc.state.elements : Int))) :=
  ⟨fun svc steps => runSteps_maxCombo steps svc,
   fun svc steps => runSteps_achLe steps svc,
   fun svc st h => step_totalFixed st svc h,
   fun svc id payload now h => fixAttempt_totalFixed id payload now svc h⟩

/-- C3 witness: a tick preserves `totalFixed`, and the counterexample's
`fixAttempt` changes it by exactly the fixed-count difference (3 → 0). -/
theorem session_monotonicity_witness :
    (Step.isFix Step.tick = false ∧
      svcCombo.state.totalFixed ≤ (applyStep Step.tick svcCombo).state.totalFixed) ∧
    (svcUnfix.state.running = true ∧
      (fixAttempt "A" (some { orderIndex := some 10 }) 0 svcUnfix).state.totalFixed =
        svcUnfix.state.totalFixed +
          ((fixedCount (fixUpdated svcUnfix.state "A" (some { orderIndex := some 10 }) 0) : Int) -
           (fixedCount svcUnfix.state.elements : Int))) :=
  ⟨⟨by decide, session_monotonicity.2.2.1 svcCombo Step.tick (by decide)⟩,
   ⟨by decide,
    session_monotonicity.2.2.2 svcUnfix "A" (some { orderIndex := some 10 }) 0 (by decide)⟩⟩

end FixTheInterface
